import Mathlib

/-!
Verification of the ExpenseTracker receipt-text extraction engine.

The definitions below are a shallow embedding of the Python source:
* `src/app/services/enhanced_parser.py` (class `ReceiptParser`), and
* `src/app/services/ocr_service.py` (class `OCRService`, the text part).

Strings are modelled as `List Char` (Lean `String.data`), Python floats as
exact rationals (all numbers produced by the extraction patterns are short
decimal literals, so ordering and equality agree with IEEE floats on every
comparison the code performs), and the Python `re` patterns are embedded via
an explicit backtracking matcher (`mtch`) over a small regex syntax `RE`.
The matcher returns the list of all alternatives in the backtracking
priority order that Python's `re` uses (leftmost position first; within a
position, greedy quantifiers prefer longer matches and lazy quantifiers
prefer shorter ones; alternatives in written order), so the head of the
list, when it exists, is the match `re.search` finds.
-/

set_option maxRecDepth 8000

/-- Character classes occurring in the embedded patterns.  Python's Unicode
classes are modelled over the character ranges the receipt texts use: `\s`
as ASCII whitespace, `\d`/`[0-9]` as ASCII digits. -/
inductive Cls where
  | digit
  | digit19
  | digitComma
  | ws
  | notNl
  | notDigit
deriving DecidableEq

def clsMatch : Cls → Char → Bool
  | .digit, c => c.isDigit
  | .digit19, c => '1' ≤ c && c ≤ '9'
  | .digitComma, c => c.isDigit || c = ','
  | .ws, c => c = ' ' || c = '\t' || c = '\n' || c = '\r' || c = '\x0b' || c = '\x0c'
  | .notNl, c => c ≠ '\n'
  | .notDigit, c => !c.isDigit

/-- Embedded regex syntax: literals, case-insensitive literals, classes,
sequencing, ordered alternation, greedy `?`/`*`/`+`, lazy `*?`/`+?`,
bounded `{m,n}` and unbounded `{m,}` repetition (greedy), capture groups
and the word boundary `\b`. -/
inductive RE where
  | eps
  | lit (c : Char)
  | litCI (c : Char)
  | cls (k : Cls)
  | seq (a b : RE)
  | alt (a b : RE)
  | opt (a : RE)
  | starG (a : RE)
  | starL (a : RE)
  | plusG (a : RE)
  | plusL (a : RE)
  | rep (m n : Nat) (a : RE)
  | repMin (m : Nat) (a : RE)
  | grp (a : RE)
  | bnd
deriving DecidableEq

/-- Word characters for `\b`, per Python's Unicode `\w` restricted to the
scripts appearing in the receipts: ASCII alphanumerics, underscore, and the
Thai block (letters, vowel signs, tone marks and Thai digits). -/
def isWordChar (c : Char) : Bool :=
  c.isAlphanum || c = '_' || (0x0E01 ≤ c.toNat && c.toNat ≤ 0x0E5B)

def lowerEq (a b : Char) : Bool := a.toLower = b.toLower

/-- One alternative produced by the matcher: the captured groups so far (in
group order), the character immediately before the remaining input (for
`\b`), and the remaining input. -/
structure MRes where
  caps : List (List Char)
  prev : Option Char
  rest : List Char
deriving DecidableEq

/-- Backtracking matcher.  `mtch fuel r prev s` lists every way `r` can
match a prefix of `s` (with `prev` the character just before `s`), in
backtracking priority order.  `fuel` bounds the recursion depth; every
call site supplies fuel that is generous for its text. -/
def mtch : Nat → RE → Option Char → List Char → List MRes
  | 0, _, _, _ => []
  | _ + 1, .eps, prev, s => [⟨[], prev, s⟩]
  | _ + 1, .lit c, _, s =>
      match s with
      | [] => []
      | x :: rest => if x = c then [⟨[], some x, rest⟩] else []
  | _ + 1, .litCI c, _, s =>
      match s with
      | [] => []
      | x :: rest => if lowerEq x c then [⟨[], some x, rest⟩] else []
  | _ + 1, .cls k, _, s =>
      match s with
      | [] => []
      | x :: rest => if clsMatch k x then [⟨[], some x, rest⟩] else []
  | f + 1, .seq a b, prev, s =>
      (mtch f a prev s).flatMap fun r =>
        (mtch f b r.prev r.rest).map fun r2 => ⟨r.caps ++ r2.caps, r2.prev, r2.rest⟩
  | f + 1, .alt a b, prev, s => mtch f a prev s ++ mtch f b prev s
  | f + 1, .opt a, prev, s => mtch f a prev s ++ [⟨[], prev, s⟩]
  | f + 1, .starG a, prev, s =>
      ((mtch f a prev s).flatMap fun r =>
        (mtch f (.starG a) r.prev r.rest).map fun r2 =>
          ⟨r.caps ++ r2.caps, r2.prev, r2.rest⟩) ++ [⟨[], prev, s⟩]
  | f + 1, .starL a, prev, s =>
      ⟨[], prev, s⟩ :: ((mtch f a prev s).flatMap fun r =>
        (mtch f (.starL a) r.prev r.rest).map fun r2 =>
          ⟨r.caps ++ r2.caps, r2.prev, r2.rest⟩)
  | f + 1, .plusG a, prev, s =>
      (mtch f a prev s).flatMap fun r =>
        (mtch f (.starG a) r.prev r.rest).map fun r2 =>
          ⟨r.caps ++ r2.caps, r2.prev, r2.rest⟩
  | f + 1, .plusL a, prev, s =>
      (mtch f a prev s).flatMap fun r =>
        (mtch f (.starL a) r.prev r.rest).map fun r2 =>
          ⟨r.caps ++ r2.caps, r2.prev, r2.rest⟩
  | f + 1, .rep m n a, prev, s =>
      match m with
      | m2 + 1 =>
          (mtch f a prev s).flatMap fun r =>
            (mtch f (.rep m2 (n - 1) a) r.prev r.rest).map fun r2 =>
              ⟨r.caps ++ r2.caps, r2.prev, r2.rest⟩
      | 0 =>
          match n with
          | 0 => [⟨[], prev, s⟩]
          | n2 + 1 =>
              ((mtch f a prev s).flatMap fun r =>
                (mtch f (.rep 0 n2 a) r.prev r.rest).map fun r2 =>
                  ⟨r.caps ++ r2.caps, r2.prev, r2.rest⟩) ++ [⟨[], prev, s⟩]
  | f + 1, .repMin m a, prev, s =>
      match m with
      | m2 + 1 =>
          (mtch f a prev s).flatMap fun r =>
            (mtch f (.repMin m2 a) r.prev r.rest).map fun r2 =>
              ⟨r.caps ++ r2.caps, r2.prev, r2.rest⟩
      | 0 => mtch f (.starG a) prev s
  | f + 1, .grp a, prev, s =>
      (mtch f a prev s).map fun r =>
        ⟨r.caps ++ [s.take (s.length - r.rest.length)], r.prev, r.rest⟩
  | _ + 1, .bnd, prev, s =>
      let pw := match prev with | some c => isWordChar c | none => false
      let nw := match s with | c :: _ => isWordChar c | [] => false
      if pw != nw then [⟨[], prev, s⟩] else []

/-- Fuel that over-approximates the matcher's recursion depth for any of
the embedded patterns on the given text. -/
def fuelFor (s : List Char) : Nat := (s.length + 64) * 64

/-- `re.search`: try the pattern at each position from the left; at the
first position where it matches, return the captured groups of the
backtracking-preferred match. -/
def searchAux (fuel : Nat) (r : RE) : Option Char → List Char → Option (List (List Char))
  | prev, [] => ((mtch fuel r prev []).head?).map MRes.caps
  | prev, c :: t =>
      match (mtch fuel r prev (c :: t)).head? with
      | some res => some res.caps
      | none => searchAux fuel r (some c) t

def reSearch (r : RE) (s : List Char) : Option (List (List Char)) :=
  searchAux (fuelFor s) r none s

/-- `re.findall`: non-overlapping matches scanning left to right, resuming
after the end of each match; returns each match's captured groups.  (The
embedded patterns never match the empty string; the empty-match branch
advances one character, as Python does.) -/
def findAllAux (fuel : Nat) (r : RE) : Nat → Option Char → List Char → List (List (List Char))
  | 0, _, _ => []
  | steps + 1, prev, s =>
      match (mtch fuel r prev s).head? with
      | some res =>
          if res.rest.length < s.length then
            res.caps :: findAllAux fuel r steps res.prev res.rest
          else
            match s with
            | [] => [res.caps]
            | c :: t => res.caps :: findAllAux fuel r steps (some c) t
      | none =>
          match s with
          | [] => []
          | c :: t => findAllAux fuel r steps (some c) t

def reFindAll (r : RE) (s : List Char) : List (List (List Char)) :=
  findAllAux (fuelFor s) r (s.length + 1) none s

def rcat (l : List RE) : RE := l.foldr RE.seq RE.eps

def ralt : List RE → RE
  | [] => RE.eps
  | [r] => r
  | r :: r2 :: t => RE.alt r (ralt (r2 :: t))

def rstr (s : String) : RE := rcat (s.data.map RE.lit)

def rstrCI (s : String) : RE := rcat (s.data.map RE.litCI)

def wsS : RE := RE.starG (RE.cls .ws)

def optColon : RE := RE.opt (RE.lit ':')

/-- Python `str.lower()` restricted to the characters the catalogs use
(ASCII letters; Thai has no case). -/
def pyLower (s : List Char) : List Char := s.map Char.toLower

/-- `needle.isPrefixOf hay` spelled out. -/
def startsWithL : List Char → List Char → Bool
  | [], _ => true
  | _ :: _, [] => false
  | a :: as, b :: bs => a = b && startsWithL as bs

/-- Python's substring test `needle in hay` (true for the empty needle). -/
def strContains (needle : List Char) : List Char → Bool
  | [] => needle.isEmpty
  | c :: t => startsWithL needle (c :: t) || strContains needle t

def stripCommas (cs : List Char) : List Char := cs.filter (fun c => c ≠ ',')

def digitVal (c : Char) : Nat := c.toNat - '0'.toNat

/-- Python `int` on a string of decimal digits. -/
def strToNat (cs : List Char) : Nat := cs.foldl (fun a c => a * 10 + digitVal c) 0

/-- Python `str` of a nonnegative integer. -/
def natToStr (n : Nat) : List Char := Nat.toDigits 10 n

/-- Python `float(s)` on the strings the capture groups can produce
(digits with at most one decimal point): `none` models `ValueError`. -/
def pyFloat (cs : List Char) : Option ℚ :=
  let ip := cs.takeWhile Char.isDigit
  let rest := cs.dropWhile Char.isDigit
  match rest with
  | [] => if ip.isEmpty then none else some (strToNat ip)
  | '.' :: fp =>
      if (ip.isEmpty && fp.isEmpty) || !fp.all Char.isDigit then none
      else some (mkRat (strToNat ip * 10 ^ fp.length + strToNat fp) (10 ^ fp.length))
  | _ => none

/-- `pyFloat` with an irrelevant default, used only where the capture's
shape guarantees that conversion succeeds (so the default is dead code). -/
def pyFloatD (cs : List Char) : ℚ := (pyFloat cs).getD 0

/-- Python `max` over a list of floats; the empty case is unreachable at
its call site (Python would raise there). -/
def listMax : List ℚ → ℚ
  | [] => 0
  | a :: as => as.foldl max a

/-- Python `str.zfill(2)`. -/
def zfill2 (cs : List Char) : List Char :=
  if cs.length < 2 then List.replicate (2 - cs.length) '0' ++ cs else cs

/-- Python `str.strip()` (ASCII whitespace). -/
def pyStrip (cs : List Char) : List Char :=
  ((cs.dropWhile (fun c => clsMatch .ws c)).reverse.dropWhile (fun c => clsMatch .ws c)).reverse

namespace ReceiptParser

/-- One entry of `ReceiptParser.TRANSACTION_TYPES` (enhanced_parser.py).
The Python dict preserves insertion order, so the catalog is a list. -/
structure TxEntry where
  code : List Char
  keywords : List (List Char)
  category : List Char
  description : List Char
deriving DecidableEq

def TRANSACTION_TYPES : List TxEntry := [
  ⟨"topup".data,
   ["เติมเงิน".data, "เติม เงิน".data, "top up".data, "topup".data],
   "เติมเงิน".data, "โอนเงินเข้าบัญชีอื่น".data⟩,
  ⟨"payment".data,
   ["ชำระเงิน".data, "ชำระ เงิน".data, "payment".data, "จ่ายเงิน".data],
   "ชำระเงิน".data, "โอนเงินหรือจ่ายเงินค่าสินค้าและบริการ".data⟩,
  ⟨"bill_payment".data,
   ["จ่ายบิล".data, "จ่าย บิล".data, "pay bill".data, "bill payment".data, "ชำระค่า".data],
   "จ่ายบิล".data, "ชำระค่าสินค้าและบริการ เช่น ค่าไฟฟ้า น้ำ โทรศัพท์".data⟩,
  ⟨"transfer".data,
   ["โอนเงิน".data, "โอน เงิน".data, "transfer".data, "โอนเงินสำเร็จ".data],
   "โอนเงิน".data, "โอนเงินจากบัญชีของคุณไปยังบัญชีอื่น".data⟩]

/-- `keyword.lower() in text_lower` for some keyword of the entry. -/
def txMatches (textLower : List Char) (e : TxEntry) : Bool :=
  e.keywords.any fun k => strContains (pyLower k) textLower

/-- The inner double loop of `_detect_transaction_type`: first entry in
catalog order with a matching keyword. -/
def txFind (textLower : List Char) : List TxEntry → Option TxEntry
  | [] => none
  | e :: rest => if txMatches textLower e then some e else txFind textLower rest

/-- Result record of `_detect_transaction_type`. -/
structure TxResult where
  code : List Char
  category : List Char
  description : List Char
deriving DecidableEq

def unknownTxResult : TxResult :=
  ⟨"unknown".data, "ไม่ระบุ".data, "ไม่สามารถระบุประเภทธุรกรรมได้".data⟩

/-- `ReceiptParser._detect_transaction_type`. -/
def detect_transaction_type (text : List Char) : TxResult :=
  match txFind (pyLower text) TRANSACTION_TYPES with
  | some e => ⟨e.code, e.category, e.description⟩
  | none => unknownTxResult

/-- The capture `([0-9,]+\.?[0-9]*)`. -/
def numDC : RE :=
  rcat [RE.plusG (RE.cls .digitComma), RE.opt (RE.lit '.'), RE.starG (RE.cls .digit)]

/-- Pattern 1 of `_extract_amount`: `จำนวน\s*:?\s*([0-9,]+\.?[0-9]*)\s*บาท`. -/
def amtPat1 : RE :=
  rcat [rstr ("จำนวน"), wsS, optColon, wsS, RE.grp numDC, wsS, rstr ("บาท")]

/-- Pattern 2 of `_extract_amount`: `\b([1-9][0-9]{1,}\.?[0-9]{0,2})\s*บาท`. -/
def amtPat2 : RE :=
  rcat [RE.bnd,
        RE.grp (rcat [RE.cls .digit19, RE.repMin 1 (RE.cls .digit),
                      RE.opt (RE.lit '.'), RE.rep 0 2 (RE.cls .digit)]),
        wsS, rstr ("บาท")]

/-- Pattern 3 of `_extract_amount`: `จำนวน\s*:?\s*([0-9,]+\.?[0-9]*)`. -/
def amtPat3 : RE := rcat [rstr ("จำนวน"), wsS, optColon, wsS, RE.grp numDC]

/-- Step 3 of `_extract_amount` (pattern without `บาท`, with the
`1 <= amount <= 1000000` check). -/
def amountStep3 (text : List Char) : Option ℚ :=
  match reSearch amtPat3 text with
  | some (g :: _) =>
      match pyFloat (stripCommas g) with
      | some a => if 1 ≤ a ∧ a ≤ 1000000 then some a else none
      | none => none
  | _ => none

/-- Step 2 of `_extract_amount` (`re.findall` on pattern 2; the largest
matched number is returned).  Conversion cannot fail here: every capture
starts with `[1-9][0-9]{1,}`. -/
def amountStep2 (text : List Char) : Option ℚ :=
  match reFindAll amtPat2 text with
  | [] => amountStep3 text
  | m :: ms =>
      some (listMax ((m :: ms).map fun caps => pyFloatD (stripCommas (caps.headD []))))

/-- `ReceiptParser._extract_amount`. -/
def extract_amount (text : List Char) : Option ℚ :=
  match reSearch amtPat1 text with
  | some (g :: _) =>
      match pyFloat (stripCommas g) with
      | some a => some a
      | none => amountStep2 text
  | _ => amountStep2 text

/-- The three patterns of `_extract_fee`, in source order. -/
def feePats : List RE := [
  rcat [rstrCI ("ค่าธรรมเนียม"), wsS, optColon, wsS, RE.grp numDC],
  rcat [rstrCI ("fee"), wsS, optColon, wsS, RE.grp numDC],
  rcat [rstrCI ("ธรรมเนียม"), wsS, optColon, wsS, RE.grp numDC]]

/-- The loop of `_extract_fee`: the first pattern in order whose search
matches and whose capture converts (`try/except`) yields the fee. -/
def feeFirst (text : List Char) : List RE → Option ℚ
  | [] => none
  | p :: rest =>
      match reSearch p text with
      | some (g :: _) =>
          match pyFloat (stripCommas g) with
          | some v => some v
          | none => feeFirst text rest
      | _ => feeFirst text rest

/-- `ReceiptParser._extract_fee`: defaults to `0.0` when no pattern
matches. -/
def extract_fee (text : List Char) : ℚ := (feeFirst text feePats).getD 0

/-- The five patterns of `_extract_reference`, in source order. -/
def refPats : List RE := [
  rcat [rstrCI ("เลขที่"), wsS, rstrCI ("รายการ"), wsS, optColon, wsS,
        RE.grp (RE.plusG (RE.cls .digit))],
  rcat [rstrCI ("รายการ"), wsS, optColon, wsS, RE.grp (RE.plusG (RE.cls .digit))],
  rcat [rstrCI ("reference"), wsS, optColon, wsS, RE.grp (RE.plusG (RE.cls .digit))],
  rcat [rstrCI ("ref"), wsS, optColon, wsS, RE.grp (RE.plusG (RE.cls .digit))],
  rcat [RE.bnd, RE.grp (RE.repMin 10 (RE.cls .digit)), RE.bnd]]

/-- First pattern in a list whose `re.search` finds a match; returns that
match's capture groups. -/
def firstSearch (text : List Char) : List RE → Option (List (List Char))
  | [] => none
  | p :: rest =>
      match reSearch p text with
      | some caps => some caps
      | none => firstSearch text rest

/-- `ReceiptParser._extract_reference`. -/
def extract_reference (text : List Char) : Option (List Char) :=
  match firstSearch text refPats with
  | some (g :: _) => some g
  | _ => none

/-- Sender/recipient record (`{name, account}`). -/
structure Party where
  name : List Char
  account : Option (List Char)
deriving DecidableEq

def honorific : RE :=
  ralt [rstr ("นาย"), rstr ("นาง"), rstr ("น.ส."), rstr ("ด.ช."), rstr ("ด.ญ.")]

/-- `xxx-x-x[0-9]+`. -/
def acctRE : RE := rcat [rstr ("xxx-x-x"), RE.plusG (RE.cls .digit)]

/-- `[:：]?`. -/
def optColonWide : RE := RE.opt (ralt [RE.lit ':', RE.lit '：'])

/-- The three patterns of `_extract_sender`, in source order. -/
def senderPats : List RE := [
  rcat [RE.grp (rcat [honorific, RE.plusL (RE.cls .notNl)]),
        RE.opt (rcat [rstr ("ธ."), RE.plusL (RE.cls .notNl)]),
        RE.grp acctRE],
  rcat [rstrCI ("จาก"), wsS, optColonWide, wsS, RE.grp (RE.plusG (RE.cls .notNl))],
  rcat [rstrCI ("from"), wsS, optColonWide, wsS, RE.grp (RE.plusG (RE.cls .notNl))]]

/-- The three patterns of `_extract_recipient`, in source order. -/
def recipientPats : List RE := [
  rcat [rstr ("ธ.กสิกรไทย"), RE.plusL (RE.cls .notNl), RE.lit '\n',
        RE.grp (RE.plusL (RE.cls .notNl)),
        RE.opt (rcat [rstr ("ธ."), RE.plusG (RE.cls .notNl)]),
        RE.grp acctRE],
  rcat [rstrCI ("ถึง"), wsS, optColonWide, wsS, RE.grp (RE.plusG (RE.cls .notNl))],
  rcat [rstrCI ("to"), wsS, optColonWide, wsS, RE.grp (RE.plusG (RE.cls .notNl))]]

/-- Shared body of `_extract_sender` / `_extract_recipient`: name is group
1 stripped; account is group 2 when the pattern has a second group. -/
def extractParty (pats : List RE) (text : List Char) : Option Party :=
  match firstSearch text pats with
  | some (g1 :: rest) => some ⟨pyStrip g1, rest.head?⟩
  | _ => none

/-- `ReceiptParser._extract_sender`. -/
def extract_sender (text : List Char) : Option Party := extractParty senderPats text

/-- `ReceiptParser._extract_recipient`. -/
def extract_recipient (text : List Char) : Option Party := extractParty recipientPats text

/-- The Thai month abbreviation table, in source order. -/
def thaiMonths : List (String × String) := [
  ("ม.ค.", "01"), ("ก.พ.", "02"), ("มี.ค.", "03"), ("เม.ย.", "04"),
  ("พ.ค.", "05"), ("มิ.ย.", "06"), ("ก.ค.", "07"), ("ส.ค.", "08"),
  ("ก.ย.", "09"), ("ต.ค.", "10"), ("พ.ย.", "11"), ("ธ.ค.", "12")]

/-- `(\d{1,2})[^\d]*<month>\s*(\d{2,4})` for one month abbreviation. -/
def monthPat (m : String) : RE :=
  rcat [RE.grp (RE.rep 1 2 (RE.cls .digit)), RE.starG (RE.cls .notDigit),
        rstr m, wsS, RE.grp (RE.rep 2 4 (RE.cls .digit))]

/-- The Buddhist-to-Gregorian year conversion of `_extract_date`: a
2-digit year becomes `2500 + year - 543`; a 4-digit year above 2500 loses
543; anything else passes through. -/
def thaiYearConvert (year : List Char) : List Char :=
  if year.length = 2 then natToStr (2500 + strToNat year - 543)
  else if year.length = 4 ∧ strToNat year > 2500 then natToStr (strToNat year - 543)
  else year

/-- The Thai-month loop of `_extract_date`: months are tried in table
order; the first whose pattern matches wins.  The day is cleaned of the
OCR noise letter `d` and zero-padded. -/
def dateThaiScan (text : List Char) : List (String × String) → Option (List Char)
  | [] => none
  | (mt, mn) :: rest =>
      match reSearch (monthPat mt) text with
      | some (day :: year :: _) =>
          some (thaiYearConvert year ++ '-' :: mn.data ++
                '-' :: zfill2 (day.filter (fun c => c ≠ 'd')))
      | _ => dateThaiScan text rest

/-- The numeric date pattern: day, month and 2-4-digit year separated by
a slash or dash (each separator is the class of the slash and dash). -/
def dmyPat : RE :=
  rcat [RE.grp (RE.rep 1 2 (RE.cls .digit)), ralt [RE.lit '/', RE.lit '-'],
        RE.grp (RE.rep 1 2 (RE.cls .digit)), ralt [RE.lit '/', RE.lit '-'],
        RE.grp (RE.rep 2 4 (RE.cls .digit))]

/-- `ReceiptParser._extract_date`: Thai-month strategy first, then the
numeric day-month-year fallback, where a 2-digit year gets `20` prefixed
and a 4-digit year passes through unchanged. -/
def extract_date (text : List Char) : Option (List Char) :=
  match dateThaiScan text thaiMonths with
  | some d => some d
  | none =>
      match reSearch dmyPat text with
      | some (day :: month :: year :: _) =>
          some ((if year.length = 2 then '2' :: '0' :: year else year) ++
                '-' :: zfill2 month ++ '-' :: zfill2 day)
      | _ => none

/-- `(\d{1,2}):(\d{2})`. -/
def timePat : RE :=
  rcat [RE.grp (RE.rep 1 2 (RE.cls .digit)), RE.lit ':',
        RE.grp (RE.rep 2 2 (RE.cls .digit))]

/-- `ReceiptParser._extract_time`: first match, hour zero-padded. -/
def extract_time (text : List Char) : Option (List Char) :=
  match reSearch timePat text with
  | some (h :: m :: _) => some (zfill2 h ++ ':' :: m)
  | _ => none

/-- The bank catalog of `ReceiptParser._detect_bank`, in source order. -/
def BANKS : List (List Char × List (List Char)) := [
  ("kbank".data, ["กสิกร".data, "kbank".data, "kasikorn".data]),
  ("ktb".data, ["กรุงไทย".data, "ktb".data, "krungthai".data]),
  ("scb".data, ["ไทยพาณิชย์".data, "scb".data]),
  ("bbl".data, ["กรุงเทพ".data, "bbl".data]),
  ("bay".data, ["กรุงศรี".data, "bay".data]),
  ("ttb".data, ["ทหารไทย".data, "ttb".data])]

def bankMatches (textLower : List Char) (e : List Char × List (List Char)) : Bool :=
  e.2.any fun k => strContains (pyLower k) textLower

def bankFind (textLower : List Char) : List (List Char × List (List Char)) → Option (List Char)
  | [] => none
  | e :: rest => if bankMatches textLower e then some e.1 else bankFind textLower rest

/-- `ReceiptParser._detect_bank`. -/
def detect_bank (text : List Char) : List Char :=
  (bankFind (pyLower text) BANKS).getD ("unknown".data)

/-- The output record of `parse_receipt`. -/
structure ParsedReceipt where
  transaction_type : TxResult
  amount : Option ℚ
  fee : ℚ
  total_amount : Option ℚ
  reference_number : Option (List Char)
  from_account : Option Party
  to_account : Option Party
  date : Option (List Char)
  time : Option (List Char)
  bank : List Char
  raw_text : List Char
deriving DecidableEq

/-- `ReceiptParser.parse_receipt`: assembles all field extractors and
derives the total when `result['amount'] and result['fee']` is truthy
(both present and nonzero; `fee` is always a number). -/
def parse_receipt (raw_text : List Char) : ParsedReceipt :=
  let amount := extract_amount raw_text
  let fee := extract_fee raw_text
  { transaction_type := detect_transaction_type raw_text
    amount := amount
    fee := fee
    total_amount :=
      match amount with
      | some a => if a ≠ 0 ∧ fee ≠ 0 then some (a + fee) else none
      | none => none
    reference_number := extract_reference raw_text
    from_account := extract_sender raw_text
    to_account := extract_recipient raw_text
    date := extract_date raw_text
    time := extract_time raw_text
    bank := detect_bank raw_text
    raw_text := raw_text }

end ReceiptParser

namespace OCRService

/-- The chained OCR-confusion substitutions of `OCRService._extract_amount`
(`cleaned = text.replace(...)...`): removal of a character. -/
def rmc (a : Char) (s : List Char) : List Char := s.filter (fun c => c ≠ a)

/-- Replacement of one character by another, everywhere. -/
def rpc (a b : Char) (s : List Char) : List Char :=
  s.map (fun c => if c = a then b else c)

/-- The normalization chain, innermost substitution first, in source
order: drop commas and spaces, map recognition confusions to digits, strip
the currency glyphs. -/
def normalizeText (s : List Char) : List Char :=
  rmc 'B' (rmc '฿' (rpc '|' '1' (rpc 'I' '1' (rpc 'l' '1'
    (rpc 'o' '0' (rpc 'O' '0' (rmc ' ' (rmc ',' s))))))))

/-- The numeric capture `([0-9]+\.?[0-9]{0,2})` of the OCR amount
patterns. -/
def onum : RE :=
  rcat [RE.plusG (RE.cls .digit), RE.opt (RE.lit '.'), RE.rep 0 2 (RE.cls .digit)]

/-- OCR amount pattern 1: a label (`จำนวน`, `ยอด`, `Amount`, `Total`,
`รวม`, `โอน`), optional separator, then the numeric capture. -/
def opat1 : RE :=
  rcat [ralt [rstr ("จำนวน"), rstr ("ยอด"), rstr ("Amount"),
              rstr ("Total"), rstr ("รวม"), rstr ("โอน")],
        wsS, optColon, wsS, RE.grp onum]

/-- OCR amount pattern 2: the numeric capture followed by a currency
marker (`บาท`, `THB`, `฿`). -/
def opat2 : RE :=
  rcat [RE.grp onum, wsS, ralt [rstr ("บาท"), rstr ("THB"), rstr ("฿")]]

/-- OCR amount pattern 3: a bare number with exactly two decimals, between
word boundaries. -/
def opat3 : RE :=
  rcat [RE.bnd,
        RE.grp (rcat [RE.plusG (RE.cls .digit), RE.lit '.', RE.rep 2 2 (RE.cls .digit)]),
        RE.bnd]

/-- OCR amount pattern 4: a bare run of 2 to 6 digits between word
boundaries. -/
def opat4 : RE := rcat [RE.bnd, RE.grp (RE.rep 2 6 (RE.cls .digit)), RE.bnd]

def opats : List RE := [opat1, opat2, opat3, opat4]

/-- The inner loop of `OCRService._extract_amount`: first candidate of one
pattern's match list that converts and passes the sanity bound
`1 <= amount <= 1_000_000`. -/
def firstSane : List (List (List Char)) → Option ℚ
  | [] => none
  | caps :: rest =>
      match pyFloat (caps.headD []) with
      | some a => if 1 ≤ a ∧ a ≤ 1000000 then some a else firstSane rest
      | none => firstSane rest

/-- The outer loop of `OCRService._extract_amount`: patterns in priority
order with early exit; a pattern whose matches all fail the bound falls
through to the next pattern. -/
def amountScan (cleaned : List Char) : List RE → Option ℚ
  | [] => none
  | p :: rest =>
      match firstSane (reFindAll p cleaned) with
      | some a => some a
      | none => amountScan cleaned rest

/-- `OCRService._extract_amount`: normalize, then scan the four patterns. -/
def extract_amount (text : List Char) : Option ℚ :=
  amountScan (normalizeText text) opats

end OCRService

/-- Per-character view of the OCR normalization chain: `none` for removed
characters, the corrected digit for confusion characters, the character
itself otherwise.  Used to state and prove idempotence. -/
def normChar (c : Char) : Option Char :=
  if c = ',' then none
  else if c = ' ' then none
  else if c = 'O' then some '0'
  else if c = 'o' then some '0'
  else if c = 'l' then some '1'
  else if c = 'I' then some '1'
  else if c = '|' then some '1'
  else if c = '฿' then none
  else if c = 'B' then none
  else some c

/-- A string of shape `HH:MM` denoting a valid 24-hour clock time. -/
def isValid24h : List Char → Bool
  | [h1, h2, ':', m1, m2] =>
      h1.isDigit && h2.isDigit && m1.isDigit && m2.isDigit &&
      decide (digitVal h1 * 10 + digitVal h2 < 24) &&
      decide (digitVal m1 * 10 + digitVal m2 < 60)
  | _ => false

/-- No keyword of the transaction-type catalog occurs (case-insensitively)
in the text. -/
def ReceiptParser.noTxKeyword (s : List Char) : Prop :=
  ∀ e ∈ ReceiptParser.TRANSACTION_TYPES, ∀ k ∈ e.keywords,
    strContains (pyLower k) (pyLower s) = false

/-- No keyword of the bank catalog occurs (case-insensitively) in the
text. -/
def ReceiptParser.noBankKeyword (s : List Char) : Prop :=
  ∀ e ∈ ReceiptParser.BANKS, ∀ k ∈ e.2,
    strContains (pyLower k) (pyLower s) = false

/-- The end-to-end scenario text of the zero-fee-suppression rule. -/
def c1text : List Char := "จำนวน: 100.00 บาท ค่าธรรมเนียม: 0.00 บาท".data

instance (s : List Char) : Decidable (ReceiptParser.noTxKeyword s) := by
  unfold ReceiptParser.noTxKeyword
  infer_instance

instance (s : List Char) : Decidable (ReceiptParser.noBankKeyword s) := by
  unfold ReceiptParser.noBankKeyword
  infer_instance

theorem normalizeText_append (x y : List Char) :
    OCRService.normalizeText (x ++ y) =
      OCRService.normalizeText x ++ OCRService.normalizeText y := by
  simp [OCRService.normalizeText, OCRService.rmc, OCRService.rpc]

theorem normalizeText_singleton (c : Char) :
    OCRService.normalizeText [c] = (normChar c).toList := by
  by_cases h1 : c = ','
  · subst h1; rfl
  · by_cases h2 : c = ' '
    · subst h2; rfl
    · by_cases h3 : c = 'O'
      · subst h3; rfl
      · by_cases h4 : c = 'o'
        · subst h4; rfl
        · by_cases h5 : c = 'l'
          · subst h5; rfl
          · by_cases h6 : c = 'I'
            · subst h6; rfl
            · by_cases h7 : c = '|'
              · subst h7; rfl
              · by_cases h8 : c = '฿'
                · subst h8; rfl
                · by_cases h9 : c = 'B'
                  · subst h9; rfl
                  · simp [OCRService.normalizeText, OCRService.rmc, OCRService.rpc,
                          normChar, h1, h2, h3, h4, h5, h6, h7, h8, h9]

theorem normalizeText_eq_filterMap (s : List Char) :
    OCRService.normalizeText s = s.filterMap normChar := by
  induction s with
  | nil => rfl
  | cons c cs ih =>
      have h : c :: cs = [c] ++ cs := rfl
      rw [h, normalizeText_append, normalizeText_singleton, ih]
      cases hc : normChar c <;> simp [List.filterMap_cons, hc]

theorem normChar_stable (c d : Char) (h : normChar c = some d) : normChar d = some d := by
  unfold normChar at h
  split_ifs at h with h1 h2 h3 h4 h5 h6 h7 h8 h9 <;>
    first
      | exact Option.noConfusion h
      | (injection h with h; subst h; decide)
      | (injection h with h; subst h;
         unfold normChar;
         rw [if_neg h1, if_neg h2, if_neg h3, if_neg h4, if_neg h5,
             if_neg h6, if_neg h7, if_neg h8, if_neg h9])

theorem normChar_bind (c : Char) : (normChar c).bind normChar = normChar c := by
  rcases hnc : normChar c with _ | d
  · rfl
  · show normChar d = some d
    exact normChar_stable c d hnc

/-- Claim C5: the OCR text normalization (remove commas and spaces, map
recognition confusions to digits, strip currency glyphs) is idempotent:
normalizing twice equals normalizing once, for every string. -/
theorem c5_normalization_idempotent (s : List Char) :
    OCRService.normalizeText (OCRService.normalizeText s) = OCRService.normalizeText s := by
  simp only [normalizeText_eq_filterMap, List.filterMap_filterMap]
  have hfun : (fun x => (normChar x).bind normChar) = normChar := funext normChar_bind
  rw [hfun]

theorem firstSane_bound (l : List (List (List Char))) :
    ∀ a : ℚ, OCRService.firstSane l = some a → 1 ≤ a ∧ a ≤ 1000000 := by
  induction l with
  | nil => intro a h; exact Option.noConfusion h
  | cons caps rest ih =>
      intro a h
      rcases hp : pyFloat (caps.headD []) with _ | q
      · simp only [OCRService.firstSane, hp] at h
        exact ih a h
      · simp only [OCRService.firstSane, hp] at h
        split_ifs at h with hb
        · injection h with h; subst h; exact hb
        · exact ih a h

theorem amountScan_bound (ps : List RE) :
    ∀ (cleaned : List Char) (a : ℚ),
      OCRService.amountScan cleaned ps = some a → 1 ≤ a ∧ a ≤ 1000000 := by
  induction ps with
  | nil => intro cleaned a h; exact Option.noConfusion h
  | cons p rest ih =>
      intro cleaned a h
      rcases hp : OCRService.firstSane (reFindAll p cleaned) with _ | q
      · simp only [OCRService.amountScan, hp] at h
        exact ih cleaned a h
      · simp only [OCRService.amountScan, hp] at h
        injection h with h; subst h
        exact firstSane_bound _ _ hp

/-- Claim C2: whenever the OCR amount extractor returns a value, that value
satisfies the sanity bound 1 <= amount <= 1,000,000 (each pattern returns
its first match passing the bound and otherwise falls through), and the
bare number 2,000,000 is rejected, yielding absence. -/
theorem c2_amount_sanity_bound :
    (∀ (s : List Char) (a : ℚ),
        OCRService.extract_amount s = some a → 1 ≤ a ∧ a ≤ 1000000) ∧
    OCRService.extract_amount ("2,000,000".data) = none :=
  ⟨fun s a h => amountScan_bound OCRService.opats (OCRService.normalizeText s) a h,
   by decide⟩

/-- Witness for C2: on a concrete labeled input the extractor returns 500,
which lies inside the sanity bound. -/
theorem c2_amount_sanity_bound_witness :
    OCRService.extract_amount ("จำนวน 500".data) = some 500 ∧
      (1 ≤ (500 : ℚ) ∧ (500 : ℚ) ≤ 1000000) :=
  ⟨by decide, c2_amount_sanity_bound.1 ("จำนวน 500".data) 500 (by decide)⟩

theorem txFind_eq_find (tl : List Char) (l : List ReceiptParser.TxEntry) :
    ReceiptParser.txFind tl l = l.find? (ReceiptParser.txMatches tl) := by
  induction l with
  | nil => rfl
  | cons e rest ih =>
      unfold ReceiptParser.txFind
      by_cases h : ReceiptParser.txMatches tl e
      · simp [h, List.find?_cons_of_pos]
      · simp [h, List.find?_cons_of_neg, ih]

theorem bankFind_eq_find (tl : List Char) (l : List (List Char × List (List Char))) :
    ReceiptParser.bankFind tl l = (l.find? (ReceiptParser.bankMatches tl)).map Prod.fst := by
  induction l with
  | nil => rfl
  | cons e rest ih =>
      unfold ReceiptParser.bankFind
      by_cases h : ReceiptParser.bankMatches tl e
      · simp [h, List.find?_cons_of_pos]
      · simp [h, List.find?_cons_of_neg, ih]

/-- Claim C9: transaction-type classification and bank detection are total:
a text containing no catalog keyword (case-insensitive substring) yields
the fixed unknown entry resp. the bank code unknown, and otherwise the
first matching entry in catalog order wins. -/
theorem c9_classification_never_fails :
    (∀ s, ReceiptParser.noTxKeyword s →
        ReceiptParser.detect_transaction_type s = ReceiptParser.unknownTxResult) ∧
    (∀ s, ReceiptParser.noBankKeyword s →
        ReceiptParser.detect_bank s = "unknown".data) ∧
    (∀ s, ReceiptParser.detect_transaction_type s =
        match ReceiptParser.TRANSACTION_TYPES.find?
            (ReceiptParser.txMatches (pyLower s)) with
        | some e => ⟨e.code, e.category, e.description⟩
        | none => ReceiptParser.unknownTxResult) ∧
    (∀ s, ReceiptParser.detect_bank s =
        ((ReceiptParser.BANKS.find? (ReceiptParser.bankMatches (pyLower s))).map
          Prod.fst).getD ("unknown".data)) := by
  refine ⟨fun s h => ?_, fun s h => ?_, fun s => ?_, fun s => ?_⟩
  · have hn : ReceiptParser.txFind (pyLower s) ReceiptParser.TRANSACTION_TYPES = none := by
      rw [txFind_eq_find, List.find?_eq_none]
      intro e he
      simp only [ReceiptParser.txMatches, List.any_eq_true, not_exists, not_and]
      intro k hk
      rw [h e he k hk]
      exact Bool.noConfusion
    unfold ReceiptParser.detect_transaction_type
    rw [hn]
  · have hf : ReceiptParser.BANKS.find? (ReceiptParser.bankMatches (pyLower s)) = none := by
      rw [List.find?_eq_none]
      intro e he
      simp only [ReceiptParser.bankMatches, List.any_eq_true, not_exists, not_and]
      intro k hk
      rw [h e he k hk]
      exact Bool.noConfusion
    unfold ReceiptParser.detect_bank
    rw [bankFind_eq_find, hf]
    rfl
  · unfold ReceiptParser.detect_transaction_type
    rw [txFind_eq_find]
  · unfold ReceiptParser.detect_bank
    rw [bankFind_eq_find]

/-- Witness for C9: the keyword-free text x classifies as unknown for both
the transaction type and the bank. -/
theorem c9_classification_never_fails_witness :
    ReceiptParser.detect_transaction_type ("x".data) = ReceiptParser.unknownTxResult ∧
    ReceiptParser.detect_bank ("x".data) = "unknown".data :=
  ⟨c9_classification_never_fails.1 ("x".data) (by decide),
   c9_classification_never_fails.2.1 ("x".data) (by decide)⟩

/-- Claim C1: the result assembler derives `total_amount = amount + fee`
exactly when the extracted amount is present and nonzero and the extracted
fee is nonzero (the fee is always present); on the end-to-end scenario
text the amount is 100.00, the fee is 0.00, and the total stays absent. -/
theorem c1_total_amount_rule :
    (∀ (s : List Char) (t : ℚ),
        (ReceiptParser.parse_receipt s).total_amount = some t ↔
          ∃ a, ReceiptParser.extract_amount s = some a ∧ a ≠ 0 ∧
            ReceiptParser.extract_fee s ≠ 0 ∧ t = a + ReceiptParser.extract_fee s) ∧
    ReceiptParser.extract_amount c1text = some 100 ∧
    ReceiptParser.extract_fee c1text = 0 ∧
    (ReceiptParser.parse_receipt c1text).total_amount = none := by
  refine ⟨fun s t => ?_, by decide, by decide, by decide⟩
  simp only [ReceiptParser.parse_receipt]
  rcases he : ReceiptParser.extract_amount s with _ | a
  · simp [he]
  · simp only [he]
    split_ifs with hc
    · constructor
      · intro h
        injection h with h
        exact ⟨a, rfl, hc.1, hc.2, h.symm⟩
      · rintro ⟨b, hb, hb0, hf, ht⟩
        injection hb with hb
        rw [ht, hb]
    · constructor
      · intro h
        exact h.elim
      · rintro ⟨b, hb, hb0, hf, ht⟩
        injection hb with hb
        subst hb
        exact absurd ⟨hb0, hf⟩ hc

/-- Claim C3 (amended): the numeric date fallback, reached when no Thai
month abbreviation matches, applies no Buddhist-era correction: a 2-digit
year is read as a 2000s Gregorian year and a 4-digit year passes through
unchanged, so 01/08/2568 yields 2568-08-01 (not 2025-08-01). -/
theorem c3_numeric_date_rule :
    (∀ (s d m y : List Char),
        ReceiptParser.dateThaiScan s ReceiptParser.thaiMonths = none →
        reSearch ReceiptParser.dmyPat s = some [d, m, y] →
        ReceiptParser.extract_date s =
          some ((if y.length = 2 then '2' :: '0' :: y else y) ++
            '-' :: zfill2 m ++ '-' :: zfill2 d)) ∧
    ReceiptParser.extract_date ("01/08/2568".data) = some ("2568-08-01".data) ∧
    ReceiptParser.extract_date ("01/08/25".data) = some ("2025-08-01".data) := by
  refine ⟨fun s d m y h1 h2 => ?_, by decide, by decide⟩
  simp [ReceiptParser.extract_date, h1, h2]

/-- Counterexample for C3 as stated: the input 01/08/2568 does not yield
2025-08-01. -/
theorem c3_numeric_date_counterexample :
    ¬ ReceiptParser.extract_date ("01/08/2568".data) = some ("2025-08-01".data) := by
  decide

/-- Witness for C3: on 01/08/2568 the Thai-month strategy finds nothing,
the numeric pattern captures day 01, month 08 and year 2568, and the rule
yields 2568-08-01. -/
theorem c3_numeric_date_rule_witness :
    (ReceiptParser.dateThaiScan ("01/08/2568".data) ReceiptParser.thaiMonths = none ∧
      reSearch ReceiptParser.dmyPat ("01/08/2568".data) =
        some ["01".data, "08".data, "2568".data]) ∧
    ReceiptParser.extract_date ("01/08/2568".data) = some ("2568-08-01".data) :=
  ⟨⟨by decide, by decide⟩,
   c3_numeric_date_rule.1 ("01/08/2568".data) ("01".data) ("08".data) ("2568".data)
     (by decide) (by decide)⟩

/-- Claim C4: the Thai-month date strategy converts a 2-digit year YY to
Gregorian 2500 + YY - 543 and a 4-digit year above 2500 by subtracting
543, emitting YYYY-MM-DD with the month from the fixed table and the day
zero-padded; in particular 1 ส.ค. 68 yields 2025-08-01 and 15 ก.ย. 67
yields 2024-09-15. -/
theorem c4_thai_calendar_conversion :
    ReceiptParser.extract_date ("1 ส.ค. 68".data) = some ("2025-08-01".data) ∧
    ReceiptParser.extract_date ("15 ก.ย. 67".data) = some ("2024-09-15".data) ∧
    (∀ ys : List Char, ys.length = 2 →
        ReceiptParser.thaiYearConvert ys = natToStr (2500 + strToNat ys - 543)) ∧
    (∀ ys : List Char, ys.length = 4 → strToNat ys > 2500 →
        ReceiptParser.thaiYearConvert ys = natToStr (strToNat ys - 543)) := by
  refine ⟨by decide, by decide, fun ys h => ?_, fun ys h4 hgt => ?_⟩
  · unfold ReceiptParser.thaiYearConvert
    rw [if_pos h]
  · unfold ReceiptParser.thaiYearConvert
    rw [if_neg (by omega), if_pos ⟨h4, hgt⟩]

/-- Witness for C4: the year conversions evaluated at 68 and 2568. -/
theorem c4_thai_calendar_conversion_witness :
    (("68".data.length = 2) ∧
      ReceiptParser.thaiYearConvert ("68".data) =
        natToStr (2500 + strToNat ("68".data) - 543)) ∧
    (("2568".data.length = 4) ∧ strToNat ("2568".data) > 2500 ∧
      ReceiptParser.thaiYearConvert ("2568".data) =
        natToStr (strToNat ("2568".data) - 543)) :=
  ⟨⟨by decide, c4_thai_calendar_conversion.2.2.1 ("68".data) (by decide)⟩,
   ⟨by decide, by decide,
    c4_thai_calendar_conversion.2.2.2 ("2568".data) (by decide) (by decide)⟩⟩

/-- Claim C6: the fee extractor returns exactly 0.0 when no fee pattern
matches (never an absent value) and otherwise the first matching numeric
value, with no sanity-bound filtering (2,000,000 is accepted). -/
theorem c6_fee_default_policy :
    (∀ s, ReceiptParser.feeFirst s ReceiptParser.feePats = none →
        ReceiptParser.extract_fee s = 0) ∧
    (∀ s v, ReceiptParser.feeFirst s ReceiptParser.feePats = some v →
        ReceiptParser.extract_fee s = v) ∧
    ReceiptParser.extract_fee ("ค่าธรรมเนียม: 2000000".data) = 2000000 ∧
    ReceiptParser.extract_fee [] = 0 :=
  ⟨fun s h => by simp [ReceiptParser.extract_fee, h],
   fun s v h => by simp [ReceiptParser.extract_fee, h],
   by decide, by decide⟩

/-- Witness for C6: the empty text has no fee match and yields 0; a
matching text yields its first numeric value. -/
theorem c6_fee_default_policy_witness :
    (ReceiptParser.feeFirst [] ReceiptParser.feePats = none ∧
      ReceiptParser.extract_fee [] = 0) ∧
    (ReceiptParser.feeFirst ("fee: 7".data) ReceiptParser.feePats = some 7 ∧
      ReceiptParser.extract_fee ("fee: 7".data) = 7) :=
  ⟨⟨by decide, c6_fee_default_policy.1 [] (by decide)⟩,
   ⟨by decide, c6_fee_default_policy.2.1 ("fee: 7".data) 7 (by decide)⟩⟩

/-- Claim C7: when the label-prefixed amount pattern (tried first) yields
an accepted value, the OCR amount extractor returns that value, so a
labeled amount beats an unrelated large bare number, as on the concrete
text with label 500.00 and stray 999999. -/
theorem c7_amount_label_priority :
    (∀ (s : List Char) (v : ℚ),
        OCRService.firstSane (reFindAll OCRService.opat1 (OCRService.normalizeText s)) =
            some v →
        OCRService.extract_amount s = some v) ∧
    OCRService.extract_amount ("จำนวน: 500.00 บาท 999999".data) = some 500 :=
  ⟨fun s v h => by
      simp [OCRService.extract_amount, OCRService.amountScan, OCRService.opats, h],
   by decide⟩

/-- Witness for C7: on the concrete text the labeled pattern accepts 500
and the extractor returns it. -/
theorem c7_amount_label_priority_witness :
    OCRService.firstSane
        (reFindAll OCRService.opat1
          (OCRService.normalizeText ("จำนวน: 500.00 บาท 999999".data))) = some 500 ∧
    OCRService.extract_amount ("จำนวน: 500.00 บาท 999999".data) = some 500 :=
  ⟨by decide, c7_amount_label_priority.1 ("จำนวน: 500.00 บาท 999999".data) 500 (by decide)⟩

/-- Claim C8: parse_receipt always assembles a complete record: every
field is computed by its own total extractor over the text (one field
failing to a None-like value never affects another), the fee is always a
number, and on the empty text every optional field is absent with fee 0
and the unknown classifications. -/
theorem c8_parse_receipt_total_assembly :
    (∀ s : List Char,
        (ReceiptParser.parse_receipt s).transaction_type =
            ReceiptParser.detect_transaction_type s ∧
        (ReceiptParser.parse_receipt s).amount = ReceiptParser.extract_amount s ∧
        (ReceiptParser.parse_receipt s).fee = ReceiptParser.extract_fee s ∧
        (ReceiptParser.parse_receipt s).reference_number =
            ReceiptParser.extract_reference s ∧
        (ReceiptParser.parse_receipt s).from_account = ReceiptParser.extract_sender s ∧
        (ReceiptParser.parse_receipt s).to_account = ReceiptParser.extract_recipient s ∧
        (ReceiptParser.parse_receipt s).date = ReceiptParser.extract_date s ∧
        (ReceiptParser.parse_receipt s).time = ReceiptParser.extract_time s ∧
        (ReceiptParser.parse_receipt s).bank = ReceiptParser.detect_bank s ∧
        (ReceiptParser.parse_receipt s).raw_text = s) ∧
    ReceiptParser.parse_receipt [] =
      ⟨ReceiptParser.unknownTxResult, none, 0, none, none, none, none, none, none,
       "unknown".data, []⟩ :=
  ⟨fun s => ⟨rfl, rfl, rfl, rfl, rfl, rfl, rfl, rfl, rfl, rfl⟩, by decide⟩

/-- Claim C10: the time extractor returns the first 1-2 digit hour and
2-digit minute match with the hour zero-padded but performs no range
validation, so the text 9:99 yields the invalid clock string 09:99; the
first match in the text wins. -/
theorem c10_time_not_validated :
    ReceiptParser.extract_time ("9:99".data) = some ("09:99".data) ∧
    isValid24h ("09:99".data) = false ∧
    ReceiptParser.extract_time ("15:33 น. 9:99".data) = some ("15:33".data) :=
  ⟨by decide, by decide, by decide⟩
